import Mathlib

/-!
Verification development for the litep2p substream-lifecycle core.

Part 1 models the notification protocol state machine.  Its implementation
file is not part of the sampled sources (only its test file
`src/protocol/notification/tests/notification.rs` is), so the machine is
modelled from the specification (§3, §4.1 of spec.md); each definition's
doc comment says so explicitly.

Part 2 embeds the WebRTC connection engine from
`src/transport/webrtc/connection.rs`, which is part of the sampled sources
and is translated line by line.

Identifiers (`PeerId`, `SubstreamId`, `ConnectionId`, channel ids) are
modelled as `Nat`; substreams are modelled by an opaque `Nat` handle;
protocol names by `String`; handshake bytes by `List Nat`.  Side effects
(closing a substream, sending a command, writing to a channel) are recorded
in explicit effect lists, and events emitted to the application in event
lists, so every operation is a pure function.
-/

namespace Notif

/-- Modelled from the spec: `Direction` — `Inbound | Outbound`; refers to who
initiated the substream (§3). -/
inductive Direction where
  | Inbound
  | Outbound
deriving DecidableEq

/-- Modelled from the spec: `InboundState` —
`Closed | ReadingHandshake | Validating { inbound } | SendingHandshake | Open { inbound }`
(§3).  The owned substream is a `Nat` handle. -/
inductive InboundState where
  | Closed
  | ReadingHandshake
  | Validating (inbound : Nat)
  | SendingHandshake
  | Open (inbound : Nat)
deriving DecidableEq

/-- Modelled from the spec: `OutboundState` —
`Closed | OutboundInitiated { substream } | Negotiating | Open { handshake, outbound }`
(§3). -/
inductive OutboundState where
  | Closed
  | OutboundInitiated (substream : Nat)
  | Negotiating
  | Open (handshake : List Nat) (outbound : Nat)
deriving DecidableEq

/-- Modelled from the spec: `PeerState` variants (§3).  The `shutdown`
one-shot sender held by `Open` is abstracted away (it carries no data
relevant to the transitions). -/
inductive PeerState where
  | Closed (pending_open : Option Nat)
  | OutboundInitiated (substream : Nat)
  | Validating (direction : Direction) (protocol : String) (fallback : Option String)
      (outbound : OutboundState) (inbound : InboundState)
  | Open
deriving DecidableEq

/-- Modelled from the spec: the error taxonomy surfaced through
`NotificationStreamOpenFailure` (§7). -/
inductive NotificationError where
  | Rejected
  | NoConnection
  | DialFailure
  | NegotiationFailed
deriving DecidableEq

/-- Modelled from the spec: `NotificationEvent`s delivered to the
application (§6). -/
inductive NotificationEvent where
  | validateSubstream (peer : Nat) (protocol : String) (handshake : List Nat)
  | notificationStreamOpened (peer : Nat) (protocol : String) (direction : Direction)
      (handshake : List Nat)
  | notificationStreamClosed (peer : Nat)
  | notificationStreamOpenFailure (peer : Nat) (error : NotificationError)
deriving DecidableEq

/-- Modelled from the spec: local errors returned by the operations
(missing peer entry, duplicate connection, a call arriving after the
connection was dropped, a call from a state with no outstanding
validation) (§4.1, §7). -/
inductive NotifError where
  | PeerDoesntExist
  | PeerAlreadyExists
  | ConnectionClosed
  | InvalidState
deriving DecidableEq

/-- Modelled from the spec: the side effects an operation performs on
substreams and on the connection handle — closing an owned substream,
starting the handshake negotiator on a substream, sending the local
handshake bytes on the inbound substream, and sending the
`OpenSubstream { protocol, peer, substream_id }` command over the
per-connection handle (§4.1, §6). -/
inductive NotifEffect where
  | closeSubstream (s : Nat)
  | startNegotiation (s : Nat)
  | sendHandshake (s : Nat)
  | sendOpenSubstream (sid : Nat)
deriving DecidableEq

/-- Result of one operation of the modelled machine: the peer's context
after the call (`none` = no `PeerContext` for the peer), the substream /
handle effects performed, the events emitted to the application, and the
returned result value. -/
structure StepResult where
  state : Option PeerState
  effects : List NotifEffect
  events : List NotificationEvent
  result : Except NotifError Unit

/-- Substreams owned by an inbound sub-state. -/
def InboundState.ownedSubstreams : InboundState → List Nat
  | .Validating s => [s]
  | .Open s => [s]
  | _ => []

/-- Substreams owned by an outbound sub-state. -/
def OutboundState.ownedSubstreams : OutboundState → List Nat
  | .Open _ s => [s]
  | _ => []

/-- Modelled from the spec: `on_connection_established(peer, handle)` —
inserts `PeerContext { state: Closed { pending_open: None } }`; fails if an
entry already exists (§4.1). -/
def on_connection_established (ctx : Option PeerState) : StepResult :=
  match ctx with
  | some st => ⟨some st, [], [], .error .PeerAlreadyExists⟩
  | none => ⟨some (.Closed none), [], [], .ok ()⟩

/-- Modelled from the spec: `on_connection_closed(peer)` — removes the
`PeerContext` and emits per the table of §4.1: nothing from `Closed`,
`NotificationStreamOpenFailure { peer, Rejected }` from `OutboundInitiated`
and from `Validating` with any sub-states, `NotificationStreamClosed { peer }`
from `Open`.  Any owned substreams are closed. -/
def on_connection_closed (peer : Nat) (st : PeerState) : StepResult :=
  match st with
  | .Closed _ => ⟨none, [], [], .ok ()⟩
  | .OutboundInitiated _ =>
      ⟨none, [], [.notificationStreamOpenFailure peer .Rejected], .ok ()⟩
  | .Validating _ _ _ o i =>
      ⟨none, (i.ownedSubstreams ++ o.ownedSubstreams).map NotifEffect.closeSubstream,
        [.notificationStreamOpenFailure peer .Rejected], .ok ()⟩
  | .Open => ⟨none, [], [.notificationStreamClosed peer], .ok ()⟩

/-- Modelled from the spec: `on_open_substream(peer)` (§4.1).  `connOpen`
says whether the connection handle's receiver is still alive; `newId` is
the `SubstreamId` the allocator would hand out.  No `PeerContext` → fails
with `PeerDoesntExist`.  From `Closed { pending_open: None }`: on a live
handle, sends `OpenSubstream` and moves to `OutboundInitiated { newId }`;
if the receiver is gone, stays `Closed { pending_open: None }` and emits
`NotificationStreamOpenFailure { peer, NoConnection }`.  From every other
state the call is a no-op. -/
def on_open_substream (peer : Nat) (ctx : Option PeerState) (connOpen : Bool)
    (newId : Nat) : StepResult :=
  match ctx with
  | none => ⟨none, [], [], .error .PeerDoesntExist⟩
  | some (.Closed none) =>
      if connOpen then
        ⟨some (.OutboundInitiated newId), [.sendOpenSubstream newId], [], .ok ()⟩
      else
        ⟨some (.Closed none), [],
          [.notificationStreamOpenFailure peer .NoConnection], .ok ()⟩
  | some st => ⟨some st, [], [], .ok ()⟩

/-- Modelled from the spec: `on_inbound_substream(protocol, fallback, peer,
substream)` (§4.1).  `Closed{..}` → `Validating` with direction `Inbound`,
outbound `Closed`, inbound `ReadingHandshake`, starting the negotiator on
the substream; `OutboundInitiated { sid }` → `Validating` with direction
`Outbound` and outbound `OutboundInitiated { sid }`; `Validating{..}` → the
incoming substream is rejected and closed, state preserved unchanged;
`Open` → the inbound is rejected and closed. -/
def on_inbound_substream (protocol : String) (fallback : Option String)
    (st : PeerState) (substream : Nat) : StepResult :=
  match st with
  | .Closed _ =>
      ⟨some (.Validating .Inbound protocol fallback .Closed .ReadingHandshake),
        [.startNegotiation substream], [], .ok ()⟩
  | .OutboundInitiated sid =>
      ⟨some (.Validating .Outbound protocol fallback (.OutboundInitiated sid)
          .ReadingHandshake),
        [.startNegotiation substream], [], .ok ()⟩
  | .Validating d p f o i =>
      ⟨some (.Validating d p f o i), [.closeSubstream substream], [], .ok ()⟩
  | .Open => ⟨some .Open, [.closeSubstream substream], [], .ok ()⟩

/-- Modelled from the spec: `on_outbound_substream(protocol, fallback, peer,
substream_id, substream)` (§4.1).  `OutboundInitiated { sid }` with
`sid == substream_id` → start the outbound handshake, outbound becomes
`Negotiating`; `Validating { outbound: OutboundInitiated{..}, .. }` → start
the outbound handshake, outbound becomes `Negotiating`;
`Closed { pending_open: Some(sid) }` with `sid == substream_id` → the
stream is closed and `pending_open` cleared, no event; otherwise the
substream is closed. -/
def on_outbound_substream (protocol : String) (fallback : Option String)
    (st : PeerState) (substream_id : Nat) (substream : Nat) : StepResult :=
  match st with
  | .OutboundInitiated sid =>
      if sid = substream_id then
        ⟨some (.Validating .Outbound protocol fallback .Negotiating .Closed),
          [.startNegotiation substream], [], .ok ()⟩
      else
        ⟨some (.OutboundInitiated sid), [.closeSubstream substream], [], .ok ()⟩
  | .Validating d p f (.OutboundInitiated _) i =>
      ⟨some (.Validating d p f .Negotiating i), [.startNegotiation substream], [], .ok ()⟩
  | .Closed (some sid) =>
      if sid = substream_id then
        ⟨some (.Closed none), [.closeSubstream substream], [], .ok ()⟩
      else
        ⟨some (.Closed (some sid)), [.closeSubstream substream], [], .ok ()⟩
  | st => ⟨some st, [.closeSubstream substream], [], .ok ()⟩

/-- Modelled from the spec: handshake negotiator events (§4.1).  Only the
two negotiated events are modelled; no claim concerns `NegotiationError`. -/
inductive HandshakeEvent where
  | inboundNegotiated (handshake : List Nat) (substream : Nat)
  | outboundNegotiated (handshake : List Nat) (substream : Nat)
deriving DecidableEq

/-- Modelled from the spec: the terminal condition (§4.1) — whenever both
`inbound == Open{..}` and `outbound == Open{..}`, transition to
`Open { shutdown }` and emit `NotificationStreamOpened { peer, protocol,
direction, handshake }`, `handshake` being the outbound peer's handshake
bytes. -/
def check_terminal (peer : Nat) (protocol : String) (fallback : Option String)
    (d : Direction) (o : OutboundState) (i : InboundState) : StepResult :=
  match o, i with
  | .Open hs _os, .Open _is =>
      ⟨some .Open, [], [.notificationStreamOpened peer protocol d hs], .ok ()⟩
  | o, i => ⟨some (.Validating d protocol fallback o i), [], [], .ok ()⟩

/-- Modelled from the spec: `on_handshake_event(peer, event)` (§4.1).
`InboundNegotiated` with inbound `ReadingHandshake` → inbound becomes
`Validating { inbound }` and `ValidateSubstream` is emitted;
`InboundNegotiated` with inbound `SendingHandshake` (the write of the local
handshake completed) → inbound becomes `Open` and the terminal condition is
checked; `OutboundNegotiated` with outbound `Negotiating` → outbound
becomes `Open { handshake, outbound }` and the terminal condition is
checked.  In any other state the event is ignored. -/
def on_handshake_event (peer : Nat) (st : PeerState) (ev : HandshakeEvent) : StepResult :=
  match ev, st with
  | .inboundNegotiated hs s, .Validating d p f o .ReadingHandshake =>
      ⟨some (.Validating d p f o (.Validating s)), [],
        [.validateSubstream peer p hs], .ok ()⟩
  | .inboundNegotiated _hs s, .Validating d p f o .SendingHandshake =>
      check_terminal peer p f d o (.Open s)
  | .outboundNegotiated hs s, .Validating d p f .Negotiating i =>
      check_terminal peer p f d (.Open hs s) i
  | _, st => ⟨some st, [], [], .ok ()⟩

/-- Modelled from the spec: the application's validation verdict (§4.1). -/
inductive ValidationResult where
  | Accept
  | Reject
deriving DecidableEq

/-- Modelled from the spec: `on_validation_result(peer, result)` (§4.1,
§8 scenario 3).  `connOpen` says whether the transport sender and the
per-connection receiver are still alive.  With a live connection, `Reject`
closes the owned substreams, preserves an in-flight outbound
`OutboundInitiated { sid }` as `Closed { pending_open: Some(sid) }` and
emits `NotificationStreamOpenFailure { Rejected }`; `Accept` moves inbound
to `SendingHandshake`, writing the local handshake to the inbound
substream.  If the connection has already been dropped, the call returns
an error, leaves the peer in `Closed { pending_open: None }` and emits no
event.  From a state with no outstanding validation the call errs and
changes nothing. -/
def on_validation_result (peer : Nat) (ctx : Option PeerState)
    (result : ValidationResult) (connOpen : Bool) : StepResult :=
  match ctx with
  | some (.Validating d p f o (.Validating inb)) =>
      if connOpen then
        match result with
        | .Reject =>
            match o with
            | .OutboundInitiated sid =>
                ⟨some (.Closed (some sid)), [.closeSubstream inb],
                  [.notificationStreamOpenFailure peer .Rejected], .ok ()⟩
            | o =>
                ⟨some (.Closed none),
                  NotifEffect.closeSubstream inb ::
                    o.ownedSubstreams.map NotifEffect.closeSubstream,
                  [.notificationStreamOpenFailure peer .Rejected], .ok ()⟩
        | .Accept =>
            ⟨some (.Validating d p f o .SendingHandshake), [.sendHandshake inb], [], .ok ()⟩
      else
        ⟨some (.Closed none),
          NotifEffect.closeSubstream inb ::
            o.ownedSubstreams.map NotifEffect.closeSubstream,
          [], .error .ConnectionClosed⟩
  | ctx => ⟨ctx, [], [], .error .InvalidState⟩

/-- Modelled from the spec: `close_substream(peer)` (§4.1) — from `Open`
it triggers the shutdown one-shot (recorded as no substream effect here,
the session teardown being driven by the shutdown channel); from any other
state it is a no-op. -/
def close_substream (st : PeerState) : StepResult :=
  match st with
  | .Open => ⟨some .Open, [], [], .ok ()⟩
  | st => ⟨some st, [], [], .ok ()⟩

end Notif

namespace WebRtc

/-- Errors of `crate::Error` used by `src/transport/webrtc/connection.rs`
(the `WebRtc(..)` variant's inner `str0m` error is dropped). -/
inductive WebRtcError where
  | WebRtc
  | InvalidData
  | InputRejected
  | Disconnected
  | InvalidState
  | ChannelDoesntExist
  | EssentialTaskClosed
deriving DecidableEq

/-- `WebRtcEvent` (`transport/webrtc/mod.rs`): either nothing observable or
a timeout instant handed up to the run loop.  Instants are `Nat`
milliseconds. -/
inductive WebRtcEvent where
  | Noop
  | Timeout (t : Nat)
deriving DecidableEq

/-- Side effects of the connection engine, recorded explicitly: a datagram
sent on the UDP socket, a write to an `Rtc` data channel, a message
forwarded over a substream's `tx`, an inbound substream reported to the
protocol set, `Rtc::disconnect()`, and `handle_input(Timeout(now))` driving
time forward. -/
inductive WebRtcEffect where
  | SocketSend (contents : List Nat)
  | ChannelWrite (cid : Nat) (msg : List Nat)
  | TxSend (sid : Nat) (msg : List Nat)
  | ReportSubstreamOpen (sid : Nat) (protocol : String)
  | Disconnect
  | DriveTimeout
deriving DecidableEq

/-- `str0m::IceConnectionState` (the variants the engine can observe). -/
inductive IceConnectionState where
  | New
  | Checking
  | Connected
  | Completed
  | Disconnected
deriving DecidableEq

/-- `str0m::Event` as matched in `handle_output`
(`connection.rs` lines 200-226).  `ChannelData` carries the channel id and
the result of `WebRtcMessage::decode(&d.data)` — the decoder lives in
`transport/webrtc/util.rs`, outside the sampled sources, so the decoded
form is part of the event: `none` = decode failure, `some none` = a frame
whose `payload` field is absent (header-only frame), `some (some p)` =
payload `p`. -/
inductive RtcOutputEvent where
  | IceConnectionStateChange (v : IceConnectionState)
  | ChannelOpen (cid : Nat) (name : String)
  | ChannelData (cid : Nat) (decoded : Option (Option (List Nat)))
  | ChannelClose (cid : Nat)
  | Connected
  | Other
deriving DecidableEq

/-- `str0m::Output` as matched in `handle_output`
(`connection.rs` lines 190-227). -/
inductive RtcOutput where
  | Transmit (contents : List Nat)
  | Timeout (t : Nat)
  | Event (e : RtcOutputEvent)
deriving DecidableEq

/-- Engine state: `channels : SubstreamId -> SubstreamContext` keeps only
the `channel_id` field (the `tx` half is abstracted into `TxSend`
effects), `id_mapping : ChannelId -> SubstreamId`, and the next-substream
counter.  `HashMap`s are modelled as association lists where `insert` is
cons and lookup takes the first hit. -/
structure ConnState where
  channels : List (Nat × Nat)
  id_mapping : List (Nat × Nat)
  substream_id : Nat
deriving DecidableEq

/-- First-hit association-list lookup (the `HashMap::get` of the model). -/
def alookup (k : Nat) : List (Nat × Nat) → Option Nat
  | [] => none
  | (k', v) :: rest => if k' = k then some v else alookup k rest

/-- `process_protocol_event` (`connection.rs` lines 270-298): decode the
frame (`WebRtcMessage::decode(&d.data)?`), take
`.payload.ok_or(Error::InvalidData)?`, look the channel up in `id_mapping`
and its context in `channels`, and forward the payload over the context's
`tx` (the send result is discarded with `let _ =`). -/
def process_protocol_event (st : ConnState) (cid : Nat)
    (decoded : Option (Option (List Nat))) :
    Except WebRtcError (ConnState × List WebRtcEffect × WebRtcEvent) :=
  match decoded with
  | none => .error .InvalidData
  | some none => .error .InvalidData
  | some (some message) =>
      match alookup cid st.id_mapping with
      | some id =>
          match alookup id st.channels with
          | some _ => .ok (st, [.TxSend id message], .Noop)
          | none => .error .ChannelDoesntExist
      | none => .error .ChannelDoesntExist

/-- `negotiate_protocol` (`connection.rs` lines 231-267): decode the frame,
take `.payload.ok_or(Error::InvalidData)?`, run `listener_negotiate`
(multistream-select lives outside the sampled sources — its result is the
oracle `neg`), write the encoded response to the channel
(`rtc.channel(d.id)` presence is the oracle `chanExists`, write success
`writeOk`; `WebRtcMessage::encode` is abstracted, the effect carries the
response), allocate the next substream id, insert into `id_mapping` and
`channels`, and report the inbound substream to the protocol set. -/
def negotiate_protocol (st : ConnState) (cid : Nat)
    (decoded : Option (Option (List Nat)))
    (neg : List Nat → Except WebRtcError (String × List Nat))
    (chanExists : Nat → Bool) (writeOk : Bool) :
    Except WebRtcError (ConnState × List WebRtcEffect × WebRtcEvent) :=
  match decoded with
  | none => .error .InvalidData
  | some none => .error .InvalidData
  | some (some payload) =>
      match neg payload with
      | .error e => .error e
      | .ok (protocol, response) =>
          if chanExists cid then
            if writeOk then
              let sid := st.substream_id
              .ok ({ channels := (sid, cid) :: st.channels,
                     id_mapping := (cid, sid) :: st.id_mapping,
                     substream_id := st.substream_id + 1 },
                   [.ChannelWrite cid response, .ReportSubstreamOpen sid protocol],
                   .Noop)
            else .error .WebRtc
          else .error .ChannelDoesntExist

/-- `on_channel_data` (`connection.rs` lines 301-306): dispatch on whether
the channel already has an `id_mapping` entry. -/
def on_channel_data (st : ConnState) (cid : Nat)
    (decoded : Option (Option (List Nat)))
    (neg : List Nat → Except WebRtcError (String × List Nat))
    (chanExists : Nat → Bool) (writeOk : Bool) :
    Except WebRtcError (ConnState × List WebRtcEffect × WebRtcEvent) :=
  match alookup cid st.id_mapping with
  | some _ => process_protocol_event st cid decoded
  | none => negotiate_protocol st cid decoded neg chanExists writeOk

/-- `handle_output` (`connection.rs` lines 190-228): transmit datagrams,
surface timeouts, fail with `Disconnected` on
`IceConnectionState::Disconnected`, dispatch channel data, treat
`ChannelOpen`, `ChannelClose` (the handler only logs — lines 210-214) and
unhandled events as no-ops, and fail with `InvalidState` on a duplicate
`Connected`. -/
def handle_output (st : ConnState) (o : RtcOutput)
    (neg : List Nat → Except WebRtcError (String × List Nat))
    (chanExists : Nat → Bool) (writeOk : Bool) :
    Except WebRtcError (ConnState × List WebRtcEffect × WebRtcEvent) :=
  match o with
  | .Transmit contents => .ok (st, [.SocketSend contents], .Noop)
  | .Timeout t => .ok (st, [], .Timeout t)
  | .Event e =>
      match e with
      | .IceConnectionStateChange v =>
          match v with
          | .Disconnected => .error .Disconnected
          | _ => .ok (st, [], .Noop)
      | .ChannelOpen _ _ => .ok (st, [], .Noop)
      | .ChannelData cid decoded => on_channel_data st cid decoded neg chanExists writeOk
      | .ChannelClose _ => .ok (st, [], .Noop)
      | .Connected => .error .InvalidState
      | .Other => .ok (st, [], .Noop)

/-- `poll_output` (`connection.rs` lines 153-165): `rtc.poll_output()` is
external, so its result is the input — `none` models the `Err(error)` arm,
mapped to `Error::WebRtc(..)`. -/
def poll_output (st : ConnState) (pollRes : Option RtcOutput)
    (neg : List Nat → Except WebRtcError (String × List Nat))
    (chanExists : Nat → Bool) (writeOk : Bool) :
    Except WebRtcError (ConnState × List WebRtcEffect × WebRtcEvent) :=
  match pollRes with
  | some output => handle_output st output neg chanExists writeOk
  | none => .error .WebRtc

/-- `on_input` (`connection.rs` lines 168-188): a failed
`contents.try_into()` is `Error::InvalidData`; `rtc.accepts` false is
`Error::InputRejected`; a failed `rtc.handle_input` is mapped to
`Error::InputRejected`.  The three booleans are the oracle for the
external `Rtc` behaviour. -/
def on_input (validContents accepts handleOk : Bool) : Except WebRtcError Unit :=
  if validContents then
    if accepts then
      if handleOk then .ok () else .error .InputRejected
    else .error .InputRejected
  else .error .InvalidData

/-- The sleep duration computed in the run loop (`connection.rs` lines
321-323): `timeout = min(timeout, now + 100ms)` then
`(timeout - now).max(1ms)`.  `Instant` subtraction saturates at zero,
matched by truncated `Nat` subtraction. -/
def sleep_duration (t : Nat) (now : Nat) : Nat :=
  let timeout := min t (now + 100)
  max (timeout - now) 1

/-- The `tokio::select!` arm that fired (`connection.rs` lines 337-374)
together with the external results it observes: a datagram (`none` = the
queue is closed; the triple is the `on_input` oracle), a substream-backend
event (`none` = backend closed) with the `rtc.channel` presence and write
results, a protocol-set command (`some ()` = `OpenSubstream`, `none` = the
set is closed), or the sleep timer. -/
inductive SelectArm where
  | Dgram (msg : Option (Bool × Bool × Bool))
  | Backend (ev : Option (Nat × List Nat)) (chanExists : Bool) (writeOk : Bool)
  | ProtocolCmd (cmd : Option Unit)
  | Sleep
deriving DecidableEq

/-- Outcome of one select arm: proceed past the `select!` (with the
effects the arm performed), return `Ok(())` from `run`, or return an
error from `run`. -/
inductive ArmResult where
  | Proceed (st : ConnState) (effects : List WebRtcEffect)
  | ArmReturnOk
  | ArmReturnErr (e : WebRtcError)
deriving DecidableEq

/-- The select-arm dispatch of the run loop (`connection.rs` lines
337-374).  Datagram: `Ok(_) | Err(InputRejected)` fall through, other
errors return; a closed queue returns `Ok(())`.  Backend: a closed backend
is `EssentialTaskClosed`, an unknown substream id or missing channel is
`ChannelDoesntExist`, a failed write is the `WebRtc` error, a successful
write falls through.  A protocol-set `OpenSubstream` command is only
logged; a closed set is `EssentialTaskClosed`.  The sleep arm does
nothing. -/
def handle_select_arm (st : ConnState) (arm : SelectArm) : ArmResult :=
  match arm with
  | .Dgram none => .ArmReturnOk
  | .Dgram (some (v, a, h)) =>
      match on_input v a h with
      | .ok _ => .Proceed st []
      | .error .InputRejected => .Proceed st []
      | .error e => .ArmReturnErr e
  | .Backend none _ _ => .ArmReturnErr .EssentialTaskClosed
  | .Backend (some (id, msg)) chanExists writeOk =>
      match alookup id st.channels with
      | none => .ArmReturnErr .ChannelDoesntExist
      | some channel_id =>
          if chanExists then
            if writeOk then .Proceed st [.ChannelWrite channel_id msg]
            else .ArmReturnErr .WebRtc
          else .ArmReturnErr .ChannelDoesntExist
  | .ProtocolCmd (some _) => .Proceed st []
  | .ProtocolCmd none => .ArmReturnErr .EssentialTaskClosed
  | .Sleep => .Proceed st []

/-- Result of one iteration of `run` (`connection.rs` lines 309-388):
continue looping with the new state (the flag records whether
`handle_input(Timeout(now))` was issued), return `Ok(())`, or return an
error.  Every variant carries the effects performed this iteration. -/
inductive RunStep where
  | Continue (st : ConnState) (effects : List WebRtcEffect) (timeDriven : Bool)
  | ReturnOk (effects : List WebRtcEffect)
  | ReturnErr (e : WebRtcError) (effects : List WebRtcEffect)
deriving DecidableEq

/-- The effects an iteration performed, whatever its outcome. -/
def RunStep.effects : RunStep → List WebRtcEffect
  | .Continue _ e _ => e
  | .ReturnOk e => e
  | .ReturnErr _ e => e

/-- The tail of a loop iteration past the `select!` (`connection.rs` lines
337-387): a falling-through arm reaches `handle_input(Input::Timeout(now))`
— on success the loop continues, on failure `rtc.disconnect()` is called
and `Err(Disconnected)` returned; returning arms leave `run` directly. -/
def run_select_step (effs : List WebRtcEffect) (ar : ArmResult)
    (timeoutOk : Bool) : RunStep :=
  match ar with
  | .ArmReturnOk => .ReturnOk effs
  | .ArmReturnErr e => .ReturnErr e effs
  | .Proceed st2 effs2 =>
      match timeoutOk with
      | true => .Continue st2 (effs ++ effs2 ++ [.DriveTimeout]) true
      | false =>
          .ReturnErr .Disconnected (effs ++ effs2 ++ [.DriveTimeout, .Disconnect])

/-- Dispatch on the `poll_output` result (`connection.rs` lines 319-335):
an error → `rtc.disconnect()` then `return Ok(())`; `Noop` → `continue`
(no select, no time drive); `Timeout` → run the select arm and the
iteration tail. -/
def run_poll_step (pr : Except WebRtcError (ConnState × List WebRtcEffect × WebRtcEvent))
    (arm : SelectArm) (timeoutOk : Bool) : RunStep :=
  match pr with
  | .error _ => .ReturnOk [.Disconnect]
  | .ok (st1, effs, .Noop) => .Continue st1 effs false
  | .ok (st1, effs, .Timeout _) => run_select_step effs (handle_select_arm st1 arm) timeoutOk

/-- One iteration of `run` (`connection.rs` lines 309-388).  `alive` is
`rtc.is_alive()`; `pollRes` the `rtc.poll_output()` result; `timeoutOk`
whether `rtc.handle_input(Input::Timeout(now))` succeeds.  Not alive →
`return Ok(())`; otherwise poll and proceed per `run_poll_step`. -/
def run_iteration (st : ConnState) (alive : Bool) (pollRes : Option RtcOutput)
    (neg : List Nat → Except WebRtcError (String × List Nat))
    (chanExists : Nat → Bool) (writeOk : Bool)
    (arm : SelectArm) (timeoutOk : Bool) : RunStep :=
  match alive with
  | false => .ReturnOk []
  | true => run_poll_step (poll_output st pollRes neg chanExists writeOk) arm timeoutOk

end WebRtc

namespace Notif

/-- C1: for a peer whose outbound open was issued (`OutboundInitiated
{ substream: sid }`), after the inbound substream arrives and its handshake
is read, rejecting the inbound via `on_validation_result(Reject)` before
the outbound open completes leaves `Closed { pending_open: Some(sid) }`;
the subsequent `on_outbound_substream` carrying that same id transitions to
`Closed { pending_open: None }` with no event emitted to the application. -/
theorem c1_pending_open_race (peer sid : Nat) (p : String) (f : Option String)
    (hs : List Nat) (s1 s2 s3 : Nat) :
    (on_open_substream peer (some (.Closed none)) true sid).state
        = some (.OutboundInitiated sid)
    ∧ (on_inbound_substream p f (.OutboundInitiated sid) s1).state
        = some (.Validating .Outbound p f (.OutboundInitiated sid) .ReadingHandshake)
    ∧ (on_handshake_event peer
          (.Validating .Outbound p f (.OutboundInitiated sid) .ReadingHandshake)
          (.inboundNegotiated hs s2)).state
        = some (.Validating .Outbound p f (.OutboundInitiated sid) (.Validating s2))
    ∧ on_validation_result peer
          (some (.Validating .Outbound p f (.OutboundInitiated sid) (.Validating s2)))
          .Reject true
        = ⟨some (.Closed (some sid)), [.closeSubstream s2],
            [.notificationStreamOpenFailure peer .Rejected], .ok ()⟩
    ∧ on_outbound_substream p f (.Closed (some sid)) sid s3
        = ⟨some (.Closed none), [.closeSubstream s3], [], .ok ()⟩ := by
  refine ⟨rfl, rfl, rfl, rfl, ?_⟩
  simp [on_outbound_substream]

/-- C2: `on_connection_closed` removes the `PeerContext` for every prior
state and emits exactly the event determined by the top-level state: no
event from `Closed`, `NotificationStreamOpenFailure { peer, Rejected }`
from `OutboundInitiated` and from `Validating` with any sub-states,
`NotificationStreamClosed { peer }` from `Open`; the inbound sub-state
never changes which event is emitted. -/
theorem c2_connection_closed_events (peer : Nat) :
    (∀ po, on_connection_closed peer (.Closed po) = ⟨none, [], [], .ok ()⟩)
    ∧ (∀ sid, on_connection_closed peer (.OutboundInitiated sid)
        = ⟨none, [], [.notificationStreamOpenFailure peer .Rejected], .ok ()⟩)
    ∧ (∀ d p f o i,
        (on_connection_closed peer (.Validating d p f o i)).events
            = [.notificationStreamOpenFailure peer .Rejected]
        ∧ (on_connection_closed peer (.Validating d p f o i)).state = none)
    ∧ on_connection_closed peer .Open
        = ⟨none, [], [.notificationStreamClosed peer], .ok ()⟩
    ∧ (∀ st, (on_connection_closed peer st).state = none)
    ∧ (∀ d p f o i i',
        (on_connection_closed peer (.Validating d p f o i)).events
          = (on_connection_closed peer (.Validating d p f o i')).events) := by
  refine ⟨fun po => rfl, fun sid => rfl, fun d p f o i => ⟨rfl, rfl⟩, rfl, ?_, ?_⟩
  · intro st
    cases st <;> rfl
  · intro d p f o i i'
    rfl

/-- C3: `on_validation_result(peer, Accept)` arriving after the connection
has been dropped returns an error, leaves the peer in
`Closed { pending_open: None }`, and emits no event to the application. -/
theorem c3_accept_after_connection_dropped (peer : Nat) (d : Direction) (p : String)
    (f : Option String) (o : OutboundState) (inb : Nat) :
    (on_validation_result peer (some (.Validating d p f o (.Validating inb)))
        .Accept false).state = some (.Closed none)
    ∧ (on_validation_result peer (some (.Validating d p f o (.Validating inb)))
        .Accept false).events = []
    ∧ (on_validation_result peer (some (.Validating d p f o (.Validating inb)))
        .Accept false).result = .error .ConnectionClosed := by
  refine ⟨?_, ?_, ?_⟩ <;> simp [on_validation_result]

/-- C4: in a `Validating` state that already contains an inbound substream,
`on_inbound_substream` rejects and closes the newly arriving substream and
leaves the peer's state unchanged. -/
theorem c4_duplicate_inbound_rejected (d : Direction) (p : String) (f : Option String)
    (o : OutboundState) (i : InboundState) (proto : String) (fb : Option String)
    (s : Nat) (_hi : i ≠ InboundState.Closed) :
    on_inbound_substream proto fb (.Validating d p f o i) s
      = ⟨some (.Validating d p f o i), [.closeSubstream s], [], .ok ()⟩ := rfl

/-- Witness for C4 at the state of the `remote_opens_multiple_inbound_substreams`
test: `Validating` with inbound `ReadingHandshake`. -/
theorem c4_duplicate_inbound_rejected_witness :
    InboundState.ReadingHandshake ≠ InboundState.Closed
    ∧ on_inbound_substream "/notif/1" none
        (.Validating .Inbound "/notif/1" none .Closed .ReadingHandshake) 9
      = ⟨some (.Validating .Inbound "/notif/1" none .Closed .ReadingHandshake),
          [.closeSubstream 9], [], .ok ()⟩ :=
  ⟨by decide,
    c4_duplicate_inbound_rejected .Inbound "/notif/1" none .Closed .ReadingHandshake
      "/notif/1" none 9 (by decide)⟩

/-- C5: `on_open_substream` is idempotent outside `Closed { pending_open:
None }` — from `OutboundInitiated`, `Open`, `Closed { pending_open:
Some(_) }` and any `Validating` state it is a no-op that sends no
`OpenSubstream` command and emits no event; with no `PeerContext` it fails
with `PeerDoesntExist`. -/
theorem c5_open_substream_idempotent (peer : Nat) (connOpen : Bool) (newId : Nat) :
    (∀ sid, on_open_substream peer (some (.OutboundInitiated sid)) connOpen newId
        = ⟨some (.OutboundInitiated sid), [], [], .ok ()⟩)
    ∧ on_open_substream peer (some .Open) connOpen newId
        = ⟨some .Open, [], [], .ok ()⟩
    ∧ (∀ sid, on_open_substream peer (some (.Closed (some sid))) connOpen newId
        = ⟨some (.Closed (some sid)), [], [], .ok ()⟩)
    ∧ (∀ d p f o i, on_open_substream peer (some (.Validating d p f o i)) connOpen newId
        = ⟨some (.Validating d p f o i), [], [], .ok ()⟩)
    ∧ on_open_substream peer none connOpen newId
        = ⟨none, [], [], .error .PeerDoesntExist⟩ :=
  ⟨fun _ => rfl, rfl, fun _ => rfl, fun _ _ _ _ _ => rfl, rfl⟩

end Notif

namespace WebRtc

/-- C6 (divergence witness): the engine does not treat an empty payload as
a no-op.  On a channel already in `id_mapping` (id `7`, mapped to
substream `3`), a frame whose `payload` field is absent (a header-only
frame) makes `on_channel_data` return `Err(InvalidData)` instead of
silently dropping it; the same happens on a channel's first frame (id `9`,
not in `id_mapping`).  A present-but-empty payload is not dropped either:
it is forwarded over `tx`. -/
theorem c6_empty_payload_is_error :
    on_channel_data ⟨[(3, 7)], [(7, 3)], 5⟩ 7 (some none)
        (fun _ => .error .InvalidData) (fun _ => false) false
      = .error .InvalidData
    ∧ on_channel_data ⟨[(3, 7)], [(7, 3)], 5⟩ 9 (some none)
        (fun _ => .error .InvalidData) (fun _ => false) false
      = .error .InvalidData
    ∧ process_protocol_event ⟨[(3, 7)], [(7, 3)], 5⟩ 7 (some (some []))
      = .ok (⟨[(3, 7)], [(7, 3)], 5⟩, [.TxSend 3 []], .Noop) :=
  ⟨rfl, rfl, rfl⟩

/-- C7 (divergence witness): a `ChannelClose` event removes nothing — the
handler only logs (`// TODO: notify the protocol`), so `id_mapping` and
`channels` keep the closed channel's entries, for every state and channel
id. -/
theorem c7_channel_close_keeps_mappings (st : ConnState) (cid : Nat)
    (neg : List Nat → Except WebRtcError (String × List Nat))
    (chanExists : Nat → Bool) (writeOk : Bool) :
    handle_output st (.Event (.ChannelClose cid)) neg chanExists writeOk
      = .ok (st, [], .Noop) := rfl

/-- C10: an `OpenSubstream` command from the protocol set is only logged:
the select-arm handler leaves the engine state entirely unchanged —
no channel opened, no `SubstreamId` allocated, `id_mapping` and `channels`
untouched — and performs no effect; a full loop iteration around it only
drives time forward. -/
theorem c10_open_substream_command_ignored (st : ConnState) :
    handle_select_arm st (.ProtocolCmd (some ())) = .Proceed st []
    ∧ ∀ (t : Nat) (neg : List Nat → Except WebRtcError (String × List Nat))
        (chanExists : Nat → Bool) (writeOk : Bool),
        run_iteration st true (some (.Timeout t)) neg chanExists writeOk
            (.ProtocolCmd (some ())) true
          = .Continue st [.DriveTimeout] true :=
  ⟨rfl, fun _ _ _ _ => rfl⟩

/-- C9 counterexample: the claim that `handle_input(Timeout(now))` is
always issued after the select wakes is false — in an iteration that
yielded `Timeout 50`, the datagram queue being closed wakes the select and
`run` returns `Ok(())` without driving time forward. -/
theorem c9_counterexample :
    run_iteration ⟨[], [], 0⟩ true (some (.Timeout 50))
        (fun _ => .error .InvalidData) (fun _ => false) false (.Dgram none) true
      = .ReturnOk []
    ∧ WebRtcEffect.DriveTimeout ∉ ([] : List WebRtcEffect) :=
  ⟨rfl, by simp⟩

/-- C9 (amended): in every iteration yielding a protocol-supplied timeout
`t`, the sleep duration for the select is `min(t, now + 100ms) - now`
clamped below by `1ms`; and `handle_input(Timeout(now))` is issued
whenever the selected arm does not itself terminate the run loop (on both
the success and the failure of that input). -/
theorem c9_sleep_duration_and_time_drive :
    (∀ t now, sleep_duration t now = max (min t (now + 100) - now) 1)
    ∧ ∀ (st st1 st2 : ConnState) (pollRes : Option RtcOutput)
        (neg : List Nat → Except WebRtcError (String × List Nat))
        (chanExists : Nat → Bool) (writeOk : Bool)
        (arm : SelectArm) (timeoutOk : Bool)
        (effs effs2 : List WebRtcEffect) (t : Nat),
        poll_output st pollRes neg chanExists writeOk = .ok (st1, effs, .Timeout t) →
        handle_select_arm st1 arm = .Proceed st2 effs2 →
        WebRtcEffect.DriveTimeout ∈
          (run_iteration st true pollRes neg chanExists writeOk arm timeoutOk).effects := by
  constructor
  · intro t now
    rfl
  · intro st st1 st2 pollRes neg chanExists writeOk arm timeoutOk effs effs2 t hpoll harm
    unfold run_iteration
    rw [hpoll]
    simp only [run_poll_step]
    rw [harm]
    cases timeoutOk <;> simp [run_select_step, RunStep.effects]

/-- Witness for C9's amended theorem at a concrete iteration: poll yields
`Timeout 0`, the sleep arm fires, and the iteration's effects contain the
time drive. -/
theorem c9_sleep_duration_and_time_drive_witness :
    poll_output ⟨[], [], 0⟩ (some (.Timeout 0))
        (fun _ => .error .InvalidData) (fun _ => false) false
      = .ok (⟨[], [], 0⟩, [], .Timeout 0)
    ∧ WebRtcEffect.DriveTimeout ∈
        (run_iteration ⟨[], [], 0⟩ true (some (.Timeout 0))
          (fun _ => .error .InvalidData) (fun _ => false) false .Sleep true).effects :=
  ⟨rfl,
    c9_sleep_duration_and_time_drive.2 ⟨[], [], 0⟩ ⟨[], [], 0⟩ ⟨[], [], 0⟩
      (some (.Timeout 0)) (fun _ => .error .InvalidData) (fun _ => false) false
      .Sleep true [] [] 0 rfl rfl⟩

/-- Effects produced by a successful `poll_output` never contain a
`disconnect` call: `rtc.disconnect()` is invoked only by the run loop
itself. -/
theorem poll_output_success_no_disconnect (st : ConnState) (pollRes : Option RtcOutput)
    (neg : List Nat → Except WebRtcError (String × List Nat))
    (chanExists : Nat → Bool) (writeOk : Bool) (st1 : ConnState)
    (effs : List WebRtcEffect) (ev : WebRtcEvent)
    (h : poll_output st pollRes neg chanExists writeOk = .ok (st1, effs, ev)) :
    WebRtcEffect.Disconnect ∉ effs := by
  unfold poll_output handle_output on_channel_data process_protocol_event
    negotiate_protocol at h
  repeat' split at h
  all_goals (try exact Except.noConfusion h)
  all_goals (simp only [Except.ok.injEq, Prod.mk.injEq] at h)
  all_goals (obtain ⟨-, heff, -⟩ := h)
  all_goals (subst heff)
  all_goals simp

/-- A select arm that makes `run` return an error never returns the
`Disconnected` error: that error is produced only by the ICE state change
inside `poll_output` and by the failing time drive. -/
theorem select_arm_error_ne_disconnected (st : ConnState) (arm : SelectArm)
    (e : WebRtcError) (h : handle_select_arm st arm = .ArmReturnErr e) :
    e ≠ WebRtcError.Disconnected := by
  cases arm with
  | Dgram msg =>
      cases msg with
      | none => simp [handle_select_arm] at h
      | some triple =>
          obtain ⟨v, a, hh⟩ := triple
          cases v <;> cases a <;> cases hh <;>
            simp [handle_select_arm, on_input] at h <;>
            (subst h; simp)
  | Backend ev chanExists writeOk =>
      cases ev with
      | none =>
          simp [handle_select_arm] at h
          subst h; simp
      | some pair =>
          obtain ⟨id, msg⟩ := pair
          simp only [handle_select_arm] at h
          cases hl : alookup id st.channels with
          | none =>
              rw [hl] at h
              simp at h
              subst h; simp
          | some cid =>
              rw [hl] at h
              cases chanExists <;> cases writeOk <;> simp at h <;> (subst h; simp)
  | ProtocolCmd cmd =>
      cases cmd with
      | none =>
          simp [handle_select_arm] at h
          subst h; simp
      | some u => simp [handle_select_arm] at h
  | Sleep => simp [handle_select_arm] at h

/-- C8 (amended): the run loop returns `Ok(())` when the protocol object
reports not-alive, when `poll_output` yields an error of any kind —
`IceConnectionState::Disconnected` included, and then `disconnect()` is
called first — and when the datagram queue is closed; the other error
paths out of the loop (datagram input failure other than `InputRejected`,
backend failure or closure, protocol-set closure) return `Err` without
calling `disconnect()`, the only `Err` return that calls `disconnect()`
being the failing time drive, which returns `Err(Disconnected)`. -/
theorem c8_termination_amended (st : ConnState) (pollRes : Option RtcOutput)
    (neg : List Nat → Except WebRtcError (String × List Nat))
    (chanExists : Nat → Bool) (writeOk : Bool) (arm : SelectArm) (timeoutOk : Bool) :
    run_iteration st false pollRes neg chanExists writeOk arm timeoutOk = .ReturnOk []
    ∧ (∀ e, poll_output st pollRes neg chanExists writeOk = .error e →
        run_iteration st true pollRes neg chanExists writeOk arm timeoutOk
          = .ReturnOk [.Disconnect])
    ∧ run_iteration st true (some (.Event (.IceConnectionStateChange .Disconnected)))
        neg chanExists writeOk arm timeoutOk = .ReturnOk [.Disconnect]
    ∧ (∀ st1 effs t,
        poll_output st pollRes neg chanExists writeOk = .ok (st1, effs, .Timeout t) →
        run_iteration st true pollRes neg chanExists writeOk (.Dgram none) timeoutOk
          = .ReturnOk effs)
    ∧ (∀ e effs,
        run_iteration st true pollRes neg chanExists writeOk arm timeoutOk
          = .ReturnErr e effs →
        (WebRtcEffect.Disconnect ∈ effs ↔ (timeoutOk = false ∧ e = .Disconnected))) := by
  refine ⟨rfl, ?_, rfl, ?_, ?_⟩
  · intro e h
    unfold run_iteration
    rw [h]
    rfl
  · intro st1 effs t h
    unfold run_iteration
    rw [h]
    simp [run_poll_step, handle_select_arm, run_select_step]
  · intro e effs h
    unfold run_iteration at h
    cases hpoll : poll_output st pollRes neg chanExists writeOk with
    | error e' => rw [hpoll] at h; simp [run_poll_step] at h
    | ok out =>
        obtain ⟨st1, effs1, ev⟩ := out
        rw [hpoll] at h
        cases ev with
        | Noop => simp [run_poll_step] at h
        | Timeout t =>
            simp only [run_poll_step] at h
            cases harm : handle_select_arm st1 arm with
            | ArmReturnOk => rw [harm] at h; simp [run_select_step] at h
            | ArmReturnErr e2 =>
                rw [harm] at h
                simp only [run_select_step, RunStep.ReturnErr.injEq] at h
                obtain ⟨he, heffs⟩ := h
                subst he; subst heffs
                constructor
                · intro hmem
                  exact absurd hmem
                    (poll_output_success_no_disconnect st pollRes neg chanExists writeOk
                      st1 effs1 (.Timeout t) hpoll)
                · rintro ⟨-, he2⟩
                  exact absurd he2
                    (select_arm_error_ne_disconnected st1 arm _ harm)
            | Proceed st2 effs2 =>
                rw [harm] at h
                cases timeoutOk with
                | true => simp [run_select_step] at h
                | false =>
                    simp only [run_select_step, RunStep.ReturnErr.injEq] at h
                    obtain ⟨he, heffs⟩ := h
                    subst he; subst heffs
                    simp

/-- Witness for C8's amended theorem at a concrete input: with
`rtc.poll_output()` failing, the iteration disconnects and returns
`Ok(())`. -/
theorem c8_termination_amended_witness :
    poll_output ⟨[], [], 0⟩ none (fun _ => .error .InvalidData) (fun _ => false) false
      = .error .WebRtc
    ∧ run_iteration ⟨[], [], 0⟩ true none (fun _ => .error .InvalidData) (fun _ => false)
        false .Sleep true = .ReturnOk [.Disconnect] :=
  ⟨rfl,
    (c8_termination_amended ⟨[], [], 0⟩ none (fun _ => .error .InvalidData)
      (fun _ => false) false .Sleep true).2.1 .WebRtc rfl⟩

/-- C8 counterexample: the claim as stated is false at concrete inputs —
a datagram whose contents fail to convert makes `run` return
`Err(InvalidData)` with no `disconnect()` call, and a channel-data frame
that fails to decode makes `run` exit cleanly (`Ok(())`) although the
protocol object is alive, the datagram queue open, and no
`IceConnectionState::Disconnected` was observed. -/
theorem c8_counterexample :
    run_iteration ⟨[], [], 0⟩ true (some (.Timeout 5)) (fun _ => .error .InvalidData)
        (fun _ => false) false (.Dgram (some (false, true, true))) true
      = .ReturnErr .InvalidData []
    ∧ WebRtcEffect.Disconnect ∉ ([] : List WebRtcEffect)
    ∧ run_iteration ⟨[], [], 0⟩ true (some (.Event (.ChannelData 0 none)))
        (fun _ => .error .InvalidData) (fun _ => false) false .Sleep true
      = .ReturnOk [.Disconnect] :=
  ⟨rfl, by simp, rfl⟩

end WebRtc
